import Mathlib

/-!
Verification development for the Go AST analyzer repository
(`goastanalyzer`).  The Go sources are shallowly embedded below:

* value objects (`SeverityLevel`, `SourceLocation`, `ComplexityScore`,
  `AnalysisConfiguration`) from `domain/valueobjects`;
* the finding entity (`AnalysisFinding`) from `domain/entities`;
* a syntax-tree type `GoNode` mirroring the `go/ast` node kinds the
  analysis passes dispatch on, together with pre-order traversals that
  mirror `ast.Inspect`;
* the complexity calculator, the goroutine leak detector and the
  concurrency bug detector from `domain/services` and
  `presentation/cli`.

Machine integers are modelled as `Int` where Go validates against
negative values and as `Nat` for counters that never go below zero.
`fmt.Sprintf` message assembly is modelled by string concatenation.
`time.Now` timestamps and the metadata map of findings are omitted:
no analyzed property mentions them.  Go's randomized map iteration
order is modelled by first-insertion order; every property proved
below is insensitive to the iteration order of those maps.
-/

set_option maxRecDepth 8192

namespace GoAnalyzer

/-! ### Small string utilities

`strings.Contains` and `strings.ToLower` are modelled over the
character lists of strings.  `asciiLower` is `strings.ToLower`
restricted to ASCII, which is exhaustive for Go identifiers appearing
in the analyzed rules. -/

def charLower (c : Char) : Char :=
  if 'A' ≤ c ∧ c ≤ 'Z' then Char.ofNat (c.toNat + 32) else c

def asciiLower (s : String) : String :=
  ⟨s.data.map charLower⟩

def listIsPrefix : List Char → List Char → Bool
  | [], _ => true
  | _ :: _, [] => false
  | a :: as, b :: bs => a == b && listIsPrefix as bs

def listIsSub : List Char → List Char → Bool
  | needle, [] => listIsPrefix needle []
  | needle, c :: cs => listIsPrefix needle (c :: cs) || listIsSub needle cs

/-- `strContains s sub` models Go `strings.Contains(s, sub)`. -/
def strContains (s sub : String) : Bool :=
  listIsSub sub.data s.data

/-- `s` contains `sub` as a substring, in propositional form (used in
theorem statements about finding messages). -/
def ContainsSub (s sub : String) : Prop :=
  ∃ pre post, s = pre ++ (sub ++ post)

/-! ### Value objects (`domain/valueobjects`) -/

/-- `SeverityLevel` from `configuration.go`. -/
inductive SeverityLevel where
  | info
  | warning
  | error
  | critical
deriving DecidableEq, Repr

/-- `FindingType` from `entities/finding.go`. -/
inductive FindingType where
  | complexity
  | smell
  | security
  | performance
  | bug
deriving DecidableEq, Repr

/-- A resolved `token.Position` (file set positions are resolved
eagerly in this embedding; the detectors only ever read the position
of `go` statements and function declarations). -/
structure Position where
  filename : String
  line : Nat
  column : Nat
deriving DecidableEq, Repr

/-- `SourceLocation` from `location.go`. -/
structure SourceLocation where
  filePath : String
  line : Nat
  column : Nat
deriving DecidableEq, Repr

/-- `NewSourceLocation`.  `filepath.Clean` is modelled as the identity
map: every path that reaches it in the verified scenarios is already in
cleaned form, and no analyzed property distinguishes a path from its
cleaned form.  The `column < 0` check of the Go code cannot fire on the
`Nat`-valued resolved positions and is therefore omitted. -/
def newSourceLocation (filePath : String) (line column : Nat) :
    Except String SourceLocation :=
  if filePath = "" then .error "file path cannot be empty"
  else if line < 1 then .error "line must be >= 1"
  else .ok ⟨filePath, line, column⟩

/-- The Go call sites use `location, _ := NewSourceLocation(...)`,
which yields the zero value on error. -/
def newSourceLocationOrZero (filePath : String) (line column : Nat) :
    SourceLocation :=
  match newSourceLocation filePath line column with
  | .ok loc => loc
  | .error _ => ⟨"", 0, 0⟩

/-- `AnalysisFinding` from `entities/finding.go` (timestamp and
metadata omitted; no analyzed property mentions them). -/
structure AnalysisFinding where
  id : String
  findingType : FindingType
  location : SourceLocation
  message : String
  severity : SeverityLevel
deriving DecidableEq, Repr

/-- `NewAnalysisFinding`: rejects empty id and message. -/
def newAnalysisFinding (id : String) (ft : FindingType)
    (loc : SourceLocation) (message : String) (sev : SeverityLevel) :
    Except String AnalysisFinding :=
  if id = "" then .error "finding ID cannot be empty"
  else if message = "" then .error "finding message cannot be empty"
  else .ok ⟨id, ft, loc, message, sev⟩

/-- The detectors use `finding, _ := NewAnalysisFinding(...)` and
append the result unconditionally, so a construction error yields the
zero-value finding. -/
def newAnalysisFindingOrZero (id : String) (ft : FindingType)
    (loc : SourceLocation) (message : String) (sev : SeverityLevel) :
    AnalysisFinding :=
  match newAnalysisFinding id ft loc message sev with
  | .ok f => f
  | .error _ => ⟨"", .complexity, ⟨"", 0, 0⟩, "", .info⟩

/-- `ComplexityScore` from `complexity.go`. -/
structure ComplexityScore where
  cyclomatic : Int
  cognitive : Int
deriving DecidableEq, Repr

/-- `NewComplexityScore`. -/
def newComplexityScore (cyclomatic cognitive : Int) :
    Except String ComplexityScore :=
  if cyclomatic < 1 then .error "cyclomatic complexity must be >= 1"
  else if cognitive < 0 then .error "cognitive complexity must be >= 0"
  else .ok ⟨cyclomatic, cognitive⟩

/-- `ComplexityScore.IsHighComplexity`. -/
def ComplexityScore.IsHighComplexity (c : ComplexityScore) : Bool :=
  c.cyclomatic > 15 || c.cognitive > 20

/-- `AnalysisConfiguration` from `configuration.go`. -/
structure AnalysisConfiguration where
  maxCyclomaticComplexity : Int
  maxCognitiveComplexity : Int
  maxFunctionLength : Int
  enableSmellDetection : Bool
  severityThreshold : SeverityLevel
deriving DecidableEq, Repr

/-- `NewAnalysisConfiguration`: validates its three numeric fields. -/
def newAnalysisConfiguration (maxCyclomatic maxCognitive maxLength : Int)
    (enableSmells : Bool) (severity : SeverityLevel) :
    Except String AnalysisConfiguration :=
  if maxCyclomatic < 1 then
    .error "max cyclomatic complexity must be >= 1"
  else if maxCognitive < 0 then
    .error "max cognitive complexity must be >= 0"
  else if maxLength < 1 then
    .error "max function length must be >= 1"
  else
    .ok ⟨maxCyclomatic, maxCognitive, maxLength, enableSmells, severity⟩

/-- `WithMaxCyclomaticComplexity`: copies the other fields, performs no
validation. -/
def withMaxCyclomaticComplexity (c : AnalysisConfiguration) (max : Int) :
    AnalysisConfiguration :=
  { c with maxCyclomaticComplexity := max }

/-- `WithMaxCognitiveComplexity`. -/
def withMaxCognitiveComplexity (c : AnalysisConfiguration) (max : Int) :
    AnalysisConfiguration :=
  { c with maxCognitiveComplexity := max }

/-- `WithMaxFunctionLength`. -/
def withMaxFunctionLength (c : AnalysisConfiguration) (max : Int) :
    AnalysisConfiguration :=
  { c with maxFunctionLength := max }

/-- `WithSmellDetection`. -/
def withSmellDetection (c : AnalysisConfiguration) (enabled : Bool) :
    AnalysisConfiguration :=
  { c with enableSmellDetection := enabled }

/-! ### The syntax tree

`GoNode` mirrors the `go/ast` node kinds that the analysis passes
dispatch on.  Fields the passes never read (e.g. loop initializers,
switch tags, channel types) are not represented; a represented program
is one whose nodes use only the represented shapes.  Positions are
stored on the two node kinds whose positions the detectors read
(`go` statements and function declarations). -/

inductive GoBinOp where
  | land
  | lor
  | other
deriving DecidableEq, Repr

inductive GoNode where
  /-- `*ast.Ident` -/
  | ident (name : String)
  /-- `*ast.BasicLit` -/
  | lit
  /-- `*ast.UnaryExpr` with `Op == token.ARROW`: a receive `<-x` -/
  | unaryArrow (x : GoNode)
  /-- `*ast.BinaryExpr` -/
  | binary (op : GoBinOp) (x y : GoNode)
  /-- `*ast.SelectorExpr` (`x.sel`; the `Sel` identifier is kept as a
  plain string, as no pass dispatches on it as a node) -/
  | selector (x : GoNode) (sel : String)
  /-- `*ast.CallExpr` -/
  | call (fn : GoNode) (args : List GoNode)
  /-- `*ast.FuncLit` -/
  | funcLit (body : GoNode)
  /-- `*ast.ExprStmt` -/
  | exprStmt (x : GoNode)
  /-- `*ast.SendStmt` (`ch <- value`) -/
  | sendStmt (ch value : GoNode)
  /-- `*ast.AssignStmt` -/
  | assignStmt (lhs rhs : List GoNode)
  /-- `*ast.IfStmt` -/
  | ifStmt (cond body : GoNode) (els : Option GoNode)
  /-- `*ast.ForStmt` -/
  | forStmt (body : GoNode)
  /-- `*ast.RangeStmt` -/
  | rangeStmt (body : GoNode)
  /-- `*ast.SwitchStmt` -/
  | switchStmt (body : GoNode)
  /-- `*ast.TypeSwitchStmt` -/
  | typeSwitchStmt (body : GoNode)
  /-- `*ast.SelectStmt` (its `Body` is a block of comm clauses) -/
  | selectStmt (body : GoNode)
  /-- `*ast.CommClause` (`comm = none` is the `default` clause) -/
  | commClause (comm : Option GoNode) (body : List GoNode)
  /-- `*ast.GoStmt` (its `Call` is a call expression) -/
  | goStmt (pos : Position) (callE : GoNode)
  /-- `*ast.DeferStmt` (its `Call` is a call expression) -/
  | deferStmt (callE : GoNode)
  /-- `*ast.ReturnStmt` -/
  | returnStmt (results : List GoNode)
  /-- `*ast.BlockStmt` -/
  | block (stmts : List GoNode)
  /-- `*ast.FuncDecl` (`body = none` models a bodyless declaration) -/
  | funcDecl (name : String) (pos : Position) (body : Option GoNode)
  /-- `*ast.File` -/
  | file (decls : List GoNode)
deriving Repr

/-! ### Pre-order traversal (`ast.Inspect`)

`foldPre` visits a node, updates the state with the step function, and
then visits the children in `ast.Walk` order — exactly the behaviour
of `ast.Inspect` with a closure over mutable state that always returns
`true` (the repository's visitors never prune). -/

mutual

def foldPre {σ : Type} (f : σ → GoNode → σ) (s : σ) (n : GoNode) : σ :=
  let s1 := f s n
  match n with
  | .ident _ => s1
  | .lit => s1
  | .unaryArrow x => foldPre f s1 x
  | .binary _ x y => foldPre f (foldPre f s1 x) y
  | .selector x _ => foldPre f s1 x
  | .call fn args => foldPreList f (foldPre f s1 fn) args
  | .funcLit body => foldPre f s1 body
  | .exprStmt x => foldPre f s1 x
  | .sendStmt ch value => foldPre f (foldPre f s1 ch) value
  | .assignStmt lhs rhs => foldPreList f (foldPreList f s1 lhs) rhs
  | .ifStmt cond body els => foldPreOpt f (foldPre f (foldPre f s1 cond) body) els
  | .forStmt body => foldPre f s1 body
  | .rangeStmt body => foldPre f s1 body
  | .switchStmt body => foldPre f s1 body
  | .typeSwitchStmt body => foldPre f s1 body
  | .selectStmt body => foldPre f s1 body
  | .commClause comm body => foldPreList f (foldPreOpt f s1 comm) body
  | .goStmt _ callE => foldPre f s1 callE
  | .deferStmt callE => foldPre f s1 callE
  | .returnStmt results => foldPreList f s1 results
  | .block stmts => foldPreList f s1 stmts
  | .funcDecl _ _ body => foldPreOpt f s1 body
  | .file decls => foldPreList f s1 decls

def foldPreList {σ : Type} (f : σ → GoNode → σ) (s : σ) : List GoNode → σ
  | [] => s
  | n :: rest => foldPreList f (foldPre f s n) rest

def foldPreOpt {σ : Type} (f : σ → GoNode → σ) (s : σ) : Option GoNode → σ
  | none => s
  | some n => foldPre f s n

end

/-! ### Complexity calculator (`services/complexity_calculator.go`) -/

/-- The per-node increment of `calculateCyclomaticComplexity`'s
`ast.Inspect` closure: `complexity++` on if / for / range / switch /
type-switch / select nodes and on `&&` / `||` binary expressions. -/
def cycloStep (complexity : Nat) (n : GoNode) : Nat :=
  match n with
  | .ifStmt _ _ _ => complexity + 1
  | .forStmt _ => complexity + 1
  | .rangeStmt _ => complexity + 1
  | .switchStmt _ => complexity + 1
  | .typeSwitchStmt _ => complexity + 1
  | .selectStmt _ => complexity + 1
  | .binary op _ _ =>
    if op = .land ∨ op = .lor then complexity + 1 else complexity
  | _ => complexity

/-- `calculateCyclomaticComplexity`: base complexity 1, then the
`ast.Inspect` walk. -/
def calculateCyclomaticComplexity (n : GoNode) : Nat :=
  foldPre cycloStep 1 n

/-- Every `GoNode` has positive size (each constructor contributes 1). -/
theorem GoNode.one_le_sizeOf (n : GoNode) : 1 ≤ sizeOf n := by
  cases n <;> simp_arith

/-- Every `Option GoNode` has positive size. -/
theorem GoNode.one_le_sizeOf_opt (o : Option GoNode) : 1 ≤ sizeOf o := by
  cases o <;> simp_arith

/-!
`cognitiveN` is the cognitive-complexity `ast.Inspect` closure of
`calculateCognitiveComplexity`, with its two pieces of captured
mutable state `(complexity, nesting)` threaded through the pre-order
walk.  `root = true` marks the node the walk was started on: the
`*ast.BlockStmt` case increments `nesting` only when the visited block
is not that root node (`if n != node`), and the increment is never
undone on block exit (the Go code mutates the captured variable).  The
`*ast.IfStmt` case additionally re-runs the whole computation on a
synthesized one-statement block around a chained `else if` branch
(`calculateCognitiveComplexity(&ast.BlockStmt{List:
[]ast.Stmt{&ast.IfStmt{Cond: elseIf.Cond, Body: elseIf.Body}}},
nesting)`). -/
mutual

def cognitiveN (root : Bool) (n : GoNode) (st : Nat × Nat) : Nat × Nat :=
  match n with
  | .ident _ => st
  | .lit => st
  | .unaryArrow x => cognitiveN false x st
  | .binary op x y =>
    cognitiveN false y (cognitiveN false x
      (if op = .land ∨ op = .lor then (st.1 + (1 + st.2), st.2) else st))
  | .selector x _ => cognitiveN false x st
  | .call fn args => cognitiveL (cognitiveN false fn st) args
  | .funcLit body => cognitiveN false body st
  | .exprStmt x => cognitiveN false x st
  | .sendStmt ch value => cognitiveN false value (cognitiveN false ch st)
  | .assignStmt lhs rhs => cognitiveL (cognitiveL st lhs) rhs
  | .ifStmt cond body (some (.ifStmt elseCond elseBody elseEls)) =>
    cognitiveO
      (cognitiveN false body (cognitiveN false cond
        (st.1 + (1 + st.2) +
          (cognitiveN true (.block [.ifStmt elseCond elseBody none])
            (0, st.2)).1,
         st.2)))
      (some (.ifStmt elseCond elseBody elseEls))
  | .ifStmt cond body els =>
    cognitiveO (cognitiveN false body (cognitiveN false cond
      (st.1 + (1 + st.2), st.2))) els
  | .forStmt body => cognitiveN false body (st.1 + (1 + st.2), st.2)
  | .rangeStmt body => cognitiveN false body (st.1 + (1 + st.2), st.2)
  | .switchStmt body => cognitiveN false body (st.1 + (1 + st.2), st.2)
  | .typeSwitchStmt body => cognitiveN false body (st.1 + (1 + st.2), st.2)
  | .selectStmt body => cognitiveN false body (st.1 + (1 + st.2), st.2)
  | .commClause comm body => cognitiveL (cognitiveO st comm) body
  | .goStmt _ callE => cognitiveN false callE st
  | .deferStmt callE => cognitiveN false callE st
  | .returnStmt results => cognitiveL st results
  | .block stmts =>
    if root then cognitiveL st stmts
    else cognitiveL (st.1, st.2 + 1) stmts
  | .funcDecl _ _ body => cognitiveO st body
  | .file decls => cognitiveL st decls
termination_by sizeOf n
decreasing_by
  all_goals simp_wf
  all_goals try omega
  all_goals
    (have hc := GoNode.one_le_sizeOf cond
     have hb := GoNode.one_le_sizeOf body
     have he := GoNode.one_le_sizeOf_opt elseEls
     omega)

def cognitiveL (st : Nat × Nat) : List GoNode → Nat × Nat
  | [] => st
  | n :: rest => cognitiveL (cognitiveN false n st) rest
termination_by l => sizeOf l
decreasing_by all_goals simp_wf <;> omega

def cognitiveO (st : Nat × Nat) : Option GoNode → Nat × Nat
  | none => st
  | some n => cognitiveN false n st
termination_by o => sizeOf o
decreasing_by all_goals simp_wf

end

/-- `calculateCognitiveComplexity(node, nesting)`: runs the walk with
`complexity = 0` and the given initial nesting, starting at `node` as
the root. -/
def calculateCognitiveComplexity (n : GoNode) (nesting : Nat) : Nat :=
  (cognitiveN true n (0, nesting)).1

/-- `CalculateComplexity` is invoked by the use case on each
`*ast.FuncDecl`, with initial nesting 0. -/
def calculateComplexityOfFuncDecl (fd : GoNode) : Nat × Nat :=
  (calculateCyclomaticComplexity fd, calculateCognitiveComplexity fd 0)

/-! ### Goroutine leak detector (`services/goroutine_leak_detector.go`) -/

/-- `goroutineContext`. -/
structure GoroutineContext where
  hasChannelReceive : Bool
  hasChannelClose : Bool
  hasSelectStmt : Bool
  hasContextCancel : Bool
  hasTimeout : Bool
  hasPrematureReturn : Bool
  hasChannelSend : Bool
  hasDoubleSend : Bool
  hasDeferClose : Bool
  functionName : String
  position : Position
deriving DecidableEq, Repr

/-- The name test of `isContextDoneCall`:
`strings.Contains(strings.ToLower(name), "ctx") ||
strings.Contains(strings.ToLower(name), "context")`. -/
def nameSuggestsContext (name : String) : Bool :=
  strContains (asciiLower name) "ctx" || strContains (asciiLower name) "context"

/-- `isContextDoneCall` (leak detector version): a selector `x.Done`
whose receiver identifier's name suggests a context. -/
def isContextDoneCall (e : GoNode) : Bool :=
  match e with
  | .selector (.ident name) sel =>
    sel = "Done" && nameSuggestsContext name
  | _ => false

/-- The name test of `isDoneChannel`. -/
def isDoneChannelName (name : String) : Bool :=
  strContains (asciiLower name) "done" ||
  strContains (asciiLower name) "quit" ||
  strContains (asciiLower name) "stop" ||
  strContains (asciiLower name) "cancel" ||
  strContains (asciiLower name) "exit"

/-- `isDoneChannel`: an identifier whose name contains
done/quit/stop/cancel/exit. -/
def isDoneChannel (e : GoNode) : Bool :=
  match e with
  | .ident name => isDoneChannelName name
  | _ => false

/-- `isTimeoutCall` (leak detector version): `time.After(...)`, or a
`WithTimeout`/`WithDeadline` selector whose receiver name suggests a
context. -/
def isTimeoutCall (e : GoNode) : Bool :=
  match e with
  | .call (.selector (.ident name) sel) _ =>
    (sel = "After" && name = "time") ||
    ((sel = "WithTimeout" || sel = "WithDeadline") &&
      strContains (asciiLower name) "context")
  | _ => false

/-- `sameChannel`: two channel expressions denote the same channel iff
both are identifiers with the same textual name. -/
def sameChannel (e1 e2 : GoNode) : Bool :=
  match e1, e2 with
  | .ident n1, .ident n2 => n1 == n2
  | _, _ => false

/-- The `ast.Inspect` count inside `checkForDoubleSend`: the number of
send statements in `root` whose channel is `sameChannel` to `ch`. -/
def countSameChannelSends (root : GoNode) (ch : GoNode) : Nat :=
  foldPre
    (fun k m =>
      match m with
      | .sendStmt ch2 _ => if sameChannel ch ch2 then k + 1 else k
      | _ => k)
    0 root

/-- `checkForDoubleSend`: sets `hasDoubleSend` when more than one send
statement in the root block targets the same channel. -/
def checkForDoubleSend (root : GoNode) (ch : GoNode)
    (ctx : GoroutineContext) : GoroutineContext :=
  if countSameChannelSends root ch > 1 then
    { ctx with hasDoubleSend := true }
  else ctx

/-- `analyzeCallExpression`: a plain `close(...)` call sets
`hasChannelClose`; `ctx.Done()` / `context.Done()` (receiver name
matched exactly here, unlike `isContextDoneCall`) sets
`hasContextCancel`. -/
def analyzeCallExpression (fn : GoNode) (ctx : GoroutineContext) :
    GoroutineContext :=
  let ctx1 := match fn with
    | .ident "close" => { ctx with hasChannelClose := true }
    | _ => ctx
  match fn with
  | .selector (.ident name) "Done" =>
    if name = "ctx" ∨ name = "context" then
      { ctx1 with hasContextCancel := true }
    else ctx1
  | _ => ctx1

/-- The comm clauses of a select statement's body block, in order
(the Go code iterates `selectStmt.Body.List` and looks at the
`*ast.CommClause` entries). -/
def selectClauses (body : GoNode) : List (Option GoNode × List GoNode) :=
  match body with
  | .block stmts =>
    stmts.filterMap fun s =>
      match s with
      | .commClause comm cbody => some (comm, cbody)
      | _ => none
  | _ => []

/-- Scan of one comm clause in `analyzeSelectStatement`, returning
`(hasDefault, hasContextDone, hasTimeout)` contributions. -/
def leakScanClause (comm : Option GoNode) : Bool × Bool × Bool :=
  match comm with
  | none => (true, false, false)
  | some (.exprStmt (.unaryArrow x)) =>
    let done := isContextDoneCall x || isDoneChannel x
    let timeout := match x with
      | .call _ _ => isTimeoutCall x
      | _ => false
    (false, done, timeout)
  | some (.exprStmt e) =>
    let timeout := match e with
      | .call _ _ => isTimeoutCall e
      | _ => false
    (false, false, timeout)
  | some _ => (false, false, false)

/-- `analyzeSelectStatement`: sets `hasContextCancel` when the select
has a default clause, a context-done/done-channel receive, or a
timeout clause; sets `hasTimeout` when a timeout clause was found. -/
def analyzeSelectStatement (body : GoNode) (ctx : GoroutineContext) :
    GoroutineContext :=
  let scans := (selectClauses body).map fun (comm, _) => leakScanClause comm
  let hasDefault := scans.any fun s => s.1
  let hasContextDone := scans.any fun s => s.2.1
  let hasTimeout := scans.any fun s => s.2.2
  let ctx1 :=
    if hasDefault || hasContextDone || hasTimeout then
      { ctx with hasContextCancel := true }
    else ctx
  if hasTimeout then { ctx1 with hasTimeout := true } else ctx1

/-- `checkDeferClose`: `defer close(...)` sets `hasDeferClose`. -/
def checkDeferClose (callE : GoNode) (ctx : GoroutineContext) :
    GoroutineContext :=
  match callE with
  | .call (.ident "close") _ => { ctx with hasDeferClose := true }
  | _ => ctx

/-- `checkPrematureReturn`: a return statement marks a premature
return only if a channel receive or send has already been recorded
at the moment the return is visited. -/
def checkPrematureReturn (ctx : GoroutineContext) : GoroutineContext :=
  if ctx.hasChannelReceive || ctx.hasChannelSend then
    { ctx with hasPrematureReturn := true }
  else ctx

/-- The `ast.Inspect` closure of `analyzeFunctionBody` (it captures
the root block for `checkForDoubleSend`). -/
def leakStep (root : GoNode) (ctx : GoroutineContext) (n : GoNode) :
    GoroutineContext :=
  match n with
  | .sendStmt ch _ =>
    checkForDoubleSend root ch { ctx with hasChannelSend := true }
  | .unaryArrow _ => { ctx with hasChannelReceive := true }
  | .assignStmt _ rhs =>
    if rhs.any fun r => match r with | .unaryArrow _ => true | _ => false then
      { ctx with hasChannelReceive := true }
    else ctx
  | .call fn _ => analyzeCallExpression fn ctx
  | .selectStmt body =>
    analyzeSelectStatement body { ctx with hasSelectStmt := true }
  | .deferStmt callE => checkDeferClose callE ctx
  | .returnStmt _ => checkPrematureReturn ctx
  | _ => ctx

/-- `analyzeFunctionBody`: pre-order walk of the goroutine body. -/
def analyzeFunctionBody (blockNode : GoNode) (ctx : GoroutineContext) :
    GoroutineContext :=
  foldPre (leakStep blockNode) ctx blockNode

/-- `checkLeakPatterns`: the three leak rules, applied in order, only
when the context recorded at least one channel operation. -/
def checkLeakPatterns (ctx : GoroutineContext) : List AnalysisFinding :=
  let location := newSourceLocationOrZero ctx.position.filename
    ctx.position.line ctx.position.column
  let hasOperations :=
    ctx.hasChannelReceive || ctx.hasChannelSend || ctx.hasSelectStmt
  if !hasOperations then []
  else
    let receives :=
      if ctx.hasChannelReceive && !ctx.hasChannelClose && !ctx.hasContextCancel then
        [newAnalysisFindingOrZero
          ("channel_receive_leak_" ++ ctx.functionName ++ "_" ++
            toString ctx.position.line)
          .smell location
          ("Potential goroutine leak in " ++ ctx.functionName ++
            ": channel_receive_leak detected - channel receive without close operation (confidence: 0.42)")
          .warning]
      else []
    let selects :=
      if ctx.hasSelectStmt && !ctx.hasContextCancel && !ctx.hasTimeout then
        [newAnalysisFindingOrZero
          ("select_statement_leak_" ++ ctx.functionName ++ "_" ++
            toString ctx.position.line)
          .smell location
          ("Potential goroutine leak in " ++ ctx.functionName ++
            ": select_statement_leak detected - select statement without escape hatch (context cancel or timeout) (confidence: 0.86)")
          .error]
      else []
    let sends :=
      if ctx.hasChannelSend && ctx.hasPrematureReturn && !ctx.hasDeferClose then
        [newAnalysisFindingOrZero
          ("channel_send_leak_" ++ ctx.functionName ++ "_" ++
            toString ctx.position.line)
          .smell location
          ("Potential goroutine leak in " ++ ctx.functionName ++
            ": channel_send_leak detected - channel send with premature return (confidence: 0.57)")
          .warning]
      else []
    receives ++ selects ++ sends

/-- `analyzeGoroutine`: builds the context for one `go` statement and
classifies it.  The initial function name is `anonymous_goroutine`,
replaced only when `goStmt.Call.Fun` is itself a call expression with
an identifier callee; an inline body is inspected when
`goStmt.Call.Fun` is a function literal, or when `goStmt.Call.Fun` is
a call expression with function-literal arguments. -/
def analyzeGoroutine (g : GoNode) : List AnalysisFinding :=
  match g with
  | .goStmt pos callE =>
    let ctx0 : GoroutineContext :=
      { hasChannelReceive := false, hasChannelClose := false
        hasSelectStmt := false, hasContextCancel := false
        hasTimeout := false, hasPrematureReturn := false
        hasChannelSend := false, hasDoubleSend := false
        hasDeferClose := false
        functionName := "anonymous_goroutine", position := pos }
    let ctx1 := match callE with
      | .call (.call (.ident name) _) _ => { ctx0 with functionName := name }
      | _ => ctx0
    let ctx2 := match callE with
      | .call (.funcLit body) _ => analyzeFunctionBody body ctx1
      | _ => ctx1
    let ctx3 := match callE with
      | .call (.call _ innerArgs) _ =>
        innerArgs.foldl
          (fun cx a =>
            match a with
            | .funcLit body => analyzeFunctionBody body cx
            | _ => cx)
          ctx2
      | _ => ctx2
    checkLeakPatterns ctx3
  | _ => []

/-- `collectGoroutines`: all `go` statements of the tree, in
`ast.Inspect` pre-order. -/
def collectGoroutines (n : GoNode) : List GoNode :=
  foldPre
    (fun acc m =>
      match m with
      | .goStmt _ _ => acc ++ [m]
      | _ => acc)
    [] n

/-- `DetectLeaks`: classify every collected goroutine independently. -/
def detectLeaks (n : GoNode) : List AnalysisFinding :=
  (collectGoroutines n).flatMap analyzeGoroutine

/-! ### Concurrency bug detector (`services/concurrency_bug_detector.go`) -/

/-- `BlockingCause`. -/
inductive BlockingCause where
  | channelMisuse
  | sharedMemorySync
  | deadlock
deriving DecidableEq, Repr

/-- `BlockingCause.String()`. -/
def BlockingCause.string : BlockingCause → String
  | .channelMisuse => "channel_misuse"
  | .sharedMemorySync => "shared_memory_sync"
  | .deadlock => "deadlock"

/-- `blockingPattern`. -/
structure BlockingPattern where
  cause : BlockingCause
  description : String
deriving DecidableEq, Repr

/-- The per-identifier operation tallies (`map[string][]string` in Go;
modelled as an association list in first-insertion order — every
property proved below is insensitive to map iteration order). -/
def OpsMap : Type := List (String × List String)

/-- `ops[name] = append(ops[name], op)`. -/
def opsAppend (m : OpsMap) (name op : String) : OpsMap :=
  match m with
  | [] => [(name, [op])]
  | (k, vs) :: rest =>
    if k == name then (k, vs ++ [op]) :: rest
    else (k, vs) :: opsAppend rest name op

/-- `_, exists := m[name]`. -/
def opsHasKey (m : OpsMap) (name : String) : Bool :=
  match m with
  | [] => false
  | (k, _) :: rest => k == name || opsHasKey rest name

/-- The nested `ast.Inspect` of `analyzeCallForBlocking`: every
selector `id.Lock` / `id.RLock` / `id.Unlock` / `id.RUnlock` whose
receiver identifier already has a tally entry appends another
operation. -/
def mutexInspectStep (m : OpsMap) (n : GoNode) : OpsMap :=
  match n with
  | .selector (.ident id) sel =>
    if opsHasKey m id then
      if sel = "Lock" ∨ sel = "RLock" then opsAppend m id "lock"
      else if sel = "Unlock" ∨ sel = "RUnlock" then opsAppend m id "unlock"
      else m
    else m
  | _ => m

/-- `analyzeCallForBlocking`: the direct check on `call.Fun`, followed
by the nested `ast.Inspect` over the whole call expression.  The
direct check creates the tally entry, so the nested inspect then
re-counts the very same selector: every direct `id.Lock()` call is
tallied twice. -/
def analyzeCallForBlocking (callE : GoNode) (mutexOps : OpsMap) : OpsMap :=
  let direct := match callE with
    | .call (.selector (.ident id) sel) _ =>
      if sel = "Lock" ∨ sel = "RLock" then opsAppend mutexOps id "lock"
      else if sel = "Unlock" ∨ sel = "RUnlock" then opsAppend mutexOps id "unlock"
      else mutexOps
    | _ => mutexOps
  foldPre mutexInspectStep direct callE

/-- `isContextDoneCall` (bug detector version): a selector `x.Done`
or a call `x.Done()` whose receiver identifier's name suggests a
context. -/
def isContextDoneCallBug (e : GoNode) : Bool :=
  match e with
  | .selector (.ident name) sel => sel = "Done" && nameSuggestsContext name
  | .call (.selector (.ident name) sel) _ =>
    sel = "Done" && nameSuggestsContext name
  | _ => false

/-- `isTimeoutCall` (bug detector version): any selector call whose
selected name is `After` or contains `Timeout`. -/
def isTimeoutCallBug (e : GoNode) : Bool :=
  match e with
  | .call (.selector _ sel) _ => sel = "After" || strContains sel "Timeout"
  | _ => false

/-- Scan of one comm clause in `isPotentiallyBlockingSelect`,
returning `(isDefault, hasContextDone, hasTimeout)`. -/
def bugScanClause (comm : Option GoNode) : Bool × Bool × Bool :=
  match comm with
  | none => (true, false, false)
  | some (.exprStmt (.unaryArrow x)) =>
    let done := isContextDoneCallBug x
    let timeout := match x with
      | .call _ _ => isTimeoutCallBug x
      | _ => false
    (false, done, timeout)
  | some _ => (false, false, false)

/-- `isPotentiallyBlockingSelect`: at least two communication clauses
and no default, timeout or context-done escape route. -/
def isPotentiallyBlockingSelect (body : GoNode) : Bool :=
  let clauses := selectClauses body
  let caseCount := (clauses.filter fun (comm, _) => comm.isSome).length
  let scans := clauses.map fun (comm, _) => bugScanClause comm
  let hasDefault := scans.any fun s => s.1
  let hasContextDone := scans.any fun s => s.2.1
  let hasTimeout := scans.any fun s => s.2.2
  caseCount ≥ 2 && !hasDefault && !hasTimeout && !hasContextDone

/-- `hasPotentialChannelBlock`: at least two tallied operations and a
direction imbalance beyond a factor of two. -/
def hasPotentialChannelBlock (ops : List String) : Bool :=
  let sendCount := (ops.filter fun op => op == "send").length
  let receiveCount := (ops.filter fun op => op == "receive").length
  let totalOps := sendCount + receiveCount
  if totalOps < 2 then false
  else
    (sendCount > receiveCount * 2 && sendCount > 1) ||
    (receiveCount > sendCount * 2 && receiveCount > 1)

/-- `hasPotentialDeadlock`: locks strictly outnumber unlocks by more
than one. -/
def hasPotentialDeadlock (ops : List String) : Bool :=
  let lockCount := (ops.filter fun op => op == "lock").length
  let unlockCount := (ops.filter fun op => op == "unlock").length
  lockCount > unlockCount + 1

/-- Go's `%v` rendering of a `[]string` value. -/
def opsFormat (ops : List String) : String :=
  "[" ++ String.intercalate " " ops ++ "]"

/-- The state of the `analyzeBlockingPatterns` walk. -/
structure BlockState where
  patterns : List BlockingPattern
  channelOps : OpsMap
  mutexOps : OpsMap

/-- The post-walk classification of `analyzeBlockingPatterns`: the
patterns found during the walk, then one channel-misuse pattern per
imbalanced channel tally, then one deadlock pattern per imbalanced
mutex tally. -/
def finishPatterns (st : BlockState) : List BlockingPattern :=
  st.patterns ++
  (st.channelOps.filterMap fun (name, ops) =>
    if hasPotentialChannelBlock ops then
      some ⟨.channelMisuse,
        "channel '" ++ name ++ "' operations may cause blocking: " ++
          opsFormat ops⟩
    else none) ++
  (st.mutexOps.filterMap fun (name, ops) =>
    if hasPotentialDeadlock ops then
      some ⟨.deadlock,
        "mutex '" ++ name ++ "' usage pattern may cause deadlock: " ++
          opsFormat ops⟩
    else none)

/-!
`blockN` is the `ast.Inspect` closure of `analyzeBlockingPatterns`:
send statements and receive expressions on identifier channels are
tallied, every call expression feeds `analyzeCallForBlocking`, a `go`
statement with a function-literal callee triggers a fresh recursive
`analyzeBlockingPatterns` over the literal's body (whose results are
appended to the patterns, while the outer walk still descends into the
same body afterwards), and potentially-blocking selects are flagged. -/
/-- The channel tally of a send statement's channel expression. -/
def tallySend (st : BlockState) (ch : GoNode) : BlockState :=
  match ch with
  | .ident name =>
    { st with channelOps := opsAppend st.channelOps name "send" }
  | _ => st

/-- The channel tally of a receive expression's operand. -/
def tallyReceive (st : BlockState) (x : GoNode) : BlockState :=
  match x with
  | .ident name =>
    { st with channelOps := opsAppend st.channelOps name "receive" }
  | _ => st

/-- The mutex tally of a call expression
(via `analyzeCallForBlocking`). -/
def tallyCall (st : BlockState) (callE : GoNode) : BlockState :=
  { st with mutexOps := analyzeCallForBlocking callE st.mutexOps }

/-- The select check of the `analyzeBlockingPatterns` walk. -/
def flagSelect (st : BlockState) (body : GoNode) : BlockState :=
  if isPotentiallyBlockingSelect body then
    { st with patterns := st.patterns ++
        [⟨.channelMisuse,
          "select statement without default or timeout case may block indefinitely"⟩] }
  else st

mutual

def blockN (st : BlockState) (n : GoNode) : BlockState :=
  match n with
  | .ident _ => st
  | .lit => st
  | .unaryArrow x => blockN (tallyReceive st x) x
  | .binary _ x y => blockN (blockN st x) y
  | .selector x _ => blockN st x
  | .call fn args =>
    blockL (blockN (tallyCall st (.call fn args)) fn) args
  | .funcLit body => blockN st body
  | .exprStmt x => blockN st x
  | .sendStmt ch value => blockN (blockN (tallySend st ch) ch) value
  | .assignStmt lhs rhs => blockL (blockL st lhs) rhs
  | .ifStmt cond body els => blockO (blockN (blockN st cond) body) els
  | .forStmt body => blockN st body
  | .rangeStmt body => blockN st body
  | .switchStmt body => blockN st body
  | .typeSwitchStmt body => blockN st body
  | .selectStmt body => blockN (flagSelect st body) body
  | .commClause comm body => blockL (blockO st comm) body
  | .goStmt _ (.call (.funcLit body) args) =>
    blockN
      { st with patterns := st.patterns ++ analyzeBlockingPatterns body }
      (.call (.funcLit body) args)
  | .goStmt _ callE => blockN st callE
  | .deferStmt callE => blockN st callE
  | .returnStmt results => blockL st results
  | .block stmts => blockL st stmts
  | .funcDecl _ _ body => blockO st body
  | .file decls => blockL st decls
termination_by (sizeOf n, 0)
decreasing_by all_goals (simp_wf; omega)

def blockL (st : BlockState) : List GoNode → BlockState
  | [] => st
  | n :: rest => blockL (blockN st n) rest
termination_by l => (sizeOf l, 0)
decreasing_by all_goals (simp_wf; omega)

def blockO (st : BlockState) : Option GoNode → BlockState
  | none => st
  | some n => blockN st n
termination_by o => (sizeOf o, 0)
decreasing_by all_goals (simp_wf; omega)

def analyzeBlockingPatterns (b : GoNode) : List BlockingPattern :=
  finishPatterns (blockN ⟨[], [], []⟩ b)
termination_by (sizeOf b, 1)
decreasing_by all_goals simp [Prod.lex_iff]

end

/-- `detectBlockingBugs`: one finding per blocking pattern, located at
the position of the enclosing function declaration and carrying the
cause-specific message and severity. -/
def detectBlockingBugs (name : String) (pos : Position) (body : GoNode) :
    List AnalysisFinding :=
  (analyzeBlockingPatterns body).map fun pattern =>
    let location := newSourceLocationOrZero pos.filename pos.line pos.column
    let message := match pattern.cause with
      | .channelMisuse =>
        "Potential blocking bug in " ++ name ++
          ": channel misuse detected - " ++ pattern.description
      | .sharedMemorySync =>
        "Potential blocking bug in " ++ name ++
          ": shared memory synchronization issue - " ++ pattern.description
      | .deadlock =>
        "Potential blocking bug in " ++ name ++
          ": deadlock pattern detected - " ++ pattern.description
    let severity : SeverityLevel := match pattern.cause with
      | .channelMisuse => .warning
      | .sharedMemorySync => .error
      | .deadlock => .critical
    newAnalysisFindingOrZero
      (pattern.cause.string ++ "_" ++ name ++ "_" ++ toString pos.line)
      .bug location message severity

/-- `containsGoroutines`. -/
def containsGoroutines (b : GoNode) : Bool :=
  foldPre
    (fun found m =>
      match m with
      | .goStmt _ _ => true
      | _ => found)
    false b

/-- `raceConditionPattern`. -/
structure RaceConditionPattern where
  description : String
deriving DecidableEq, Repr

/-- `analyzeRaceConditionPatterns`: race detection is intentionally
disabled (too many false positives) and returns no patterns. -/
def analyzeRaceConditionPatterns (_b : GoNode) : List RaceConditionPattern :=
  []

/-- `detectRaceConditions`: only functions containing goroutines are
examined, and the (empty) race patterns are mapped to findings. -/
def detectRaceConditions (name : String) (pos : Position) (body : GoNode) :
    List AnalysisFinding :=
  if containsGoroutines body then
    (analyzeRaceConditionPatterns body).map fun pattern =>
      let location := newSourceLocationOrZero pos.filename pos.line pos.column
      newAnalysisFindingOrZero
        ("race_condition_" ++ name ++ "_" ++ toString pos.line)
        .bug location
        ("Potential race condition in " ++ name ++ ": " ++ pattern.description)
        .critical
  else []

/-- `analyzeFunctionConcurrency`: blocking-bug findings followed by
race-condition findings; bodyless declarations yield nothing. -/
def analyzeFunctionConcurrency (fd : GoNode) : List AnalysisFinding :=
  match fd with
  | .funcDecl name pos (some body) =>
    detectBlockingBugs name pos body ++ detectRaceConditions name pos body
  | _ => []

/-- `DetectBugs`: analyze every function declaration of the tree, in
`ast.Inspect` pre-order. -/
def detectBugs (n : GoNode) : List AnalysisFinding :=
  (foldPre
    (fun acc m =>
      match m with
      | .funcDecl _ _ _ => acc ++ [m]
      | _ => acc)
    [] n).flatMap analyzeFunctionConcurrency

/-! ### Reference definitions from the specification

`cyclomaticSpec` follows the specification's words for cyclomatic
complexity: the number of conditional branch constructs (if, counted
loop, iterator-loop, switch, type-switch, select) plus the number of
short-circuit boolean operator occurrences anywhere in the subtree,
independent of nesting. -/

mutual

def cyclomaticSpec : GoNode → Nat
  | .ident _ => 0
  | .lit => 0
  | .unaryArrow x => cyclomaticSpec x
  | .binary op x y =>
    (if op = .land ∨ op = .lor then 1 else 0) +
      cyclomaticSpec x + cyclomaticSpec y
  | .selector x _ => cyclomaticSpec x
  | .call fn args => cyclomaticSpec fn + cyclomaticSpecL args
  | .funcLit body => cyclomaticSpec body
  | .exprStmt x => cyclomaticSpec x
  | .sendStmt ch value => cyclomaticSpec ch + cyclomaticSpec value
  | .assignStmt lhs rhs => cyclomaticSpecL lhs + cyclomaticSpecL rhs
  | .ifStmt cond body els =>
    1 + cyclomaticSpec cond + cyclomaticSpec body + cyclomaticSpecO els
  | .forStmt body => 1 + cyclomaticSpec body
  | .rangeStmt body => 1 + cyclomaticSpec body
  | .switchStmt body => 1 + cyclomaticSpec body
  | .typeSwitchStmt body => 1 + cyclomaticSpec body
  | .selectStmt body => 1 + cyclomaticSpec body
  | .commClause comm body => cyclomaticSpecO comm + cyclomaticSpecL body
  | .goStmt _ callE => cyclomaticSpec callE
  | .deferStmt callE => cyclomaticSpec callE
  | .returnStmt results => cyclomaticSpecL results
  | .block stmts => cyclomaticSpecL stmts
  | .funcDecl _ _ body => cyclomaticSpecO body
  | .file decls => cyclomaticSpecL decls

def cyclomaticSpecL : List GoNode → Nat
  | [] => 0
  | n :: rest => cyclomaticSpec n + cyclomaticSpecL rest

def cyclomaticSpecO : Option GoNode → Nat
  | none => 0
  | some n => cyclomaticSpec n

end

/-!
`cognitiveRef` follows the specification's words for cognitive
complexity: a walk with a nesting counter that is 0 in the outermost
function block, increases by 1 on entry to each nested block body and
returns to its previous value on exit; each if, loop,
switch/type-switch, select and short-circuit boolean operator
contributes `1 + currentNesting`; an else-if chained branch is scored
once, at the same nesting level as the originating if, with no extra
nesting increment and no duplicate contribution. -/

mutual

def cognitiveRef (nest : Nat) : GoNode → Nat
  | .ident _ => 0
  | .lit => 0
  | .unaryArrow x => cognitiveRef nest x
  | .binary op x y =>
    (if op = .land ∨ op = .lor then 1 + nest else 0) +
      cognitiveRef nest x + cognitiveRef nest y
  | .selector x _ => cognitiveRef nest x
  | .call fn args => cognitiveRef nest fn + cognitiveRefL nest args
  | .funcLit body => cognitiveRef nest body
  | .exprStmt x => cognitiveRef nest x
  | .sendStmt ch value => cognitiveRef nest ch + cognitiveRef nest value
  | .assignStmt lhs rhs => cognitiveRefL nest lhs + cognitiveRefL nest rhs
  | .ifStmt cond body els =>
    (1 + nest) + cognitiveRef nest cond + cognitiveRef nest body +
      cognitiveRefElse nest els
  | .forStmt body => (1 + nest) + cognitiveRef nest body
  | .rangeStmt body => (1 + nest) + cognitiveRef nest body
  | .switchStmt body => (1 + nest) + cognitiveRef nest body
  | .typeSwitchStmt body => (1 + nest) + cognitiveRef nest body
  | .selectStmt body => (1 + nest) + cognitiveRef nest body
  | .commClause comm body =>
    cognitiveRefO nest comm + cognitiveRefL nest body
  | .goStmt _ callE => cognitiveRef nest callE
  | .deferStmt callE => cognitiveRef nest callE
  | .returnStmt results => cognitiveRefL nest results
  | .block stmts => cognitiveRefL (nest + 1) stmts
  | .funcDecl _ _ (some (.block stmts)) => cognitiveRefL 0 stmts
  | .funcDecl _ _ body => cognitiveRefO 0 body
  | .file decls => cognitiveRefL nest decls

def cognitiveRefElse (nest : Nat) : Option GoNode → Nat
  | none => 0
  | some (.ifStmt cond body els) =>
    (1 + nest) + cognitiveRef nest cond + cognitiveRef nest body +
      cognitiveRefElse nest els
  | some other => cognitiveRef nest other

def cognitiveRefL (nest : Nat) : List GoNode → Nat
  | [] => 0
  | n :: rest => cognitiveRef nest n + cognitiveRefL nest rest

def cognitiveRefO (nest : Nat) : Option GoNode → Nat
  | none => 0
  | some n => cognitiveRef nest n

end

/-! ### Scenario inputs used by the claim theorems -/

/-- The context `analyzeGoroutine` starts from for every spawn
statement at position `pos` (all flags false, the default function
name label). -/
def initialGoroutineContext (pos : Position) : GoroutineContext :=
  { hasChannelReceive := false, hasChannelClose := false
    hasSelectStmt := false, hasContextCancel := false
    hasTimeout := false, hasPrematureReturn := false
    hasChannelSend := false, hasDoubleSend := false
    hasDeferClose := false
    functionName := "anonymous_goroutine", position := pos }

/-- A file with one function `fname` whose body is a single spawn of
an inline body consisting of one `select` with two receive clauses on
the channels `ch1` and `ch2`. -/
def selectSpawnTree (ch1 ch2 fname : String) (fpos gpos : Position) : GoNode :=
  .file [.funcDecl fname fpos (some (.block
    [.goStmt gpos (.call (.funcLit (.block
      [.selectStmt (.block
        [.commClause (some (.exprStmt (.unaryArrow (.ident ch1)))) [],
         .commClause (some (.exprStmt (.unaryArrow (.ident ch2)))) []])])) [])]))]

/-- A file with one function whose body is a single spawn of an inline
body consisting only of the assignment-receive `val := <-ch`. -/
def assignReceiveSpawnTree : GoNode :=
  .file [.funcDecl "test" ⟨"example.go", 3, 1⟩ (some (.block
    [.goStmt ⟨"example.go", 4, 2⟩ (.call (.funcLit (.block
      [.assignStmt [.ident "val"] [.unaryArrow (.ident "ch")]])) [])]))]

/-- A function performing 15 sequential sends and one receive on the
channel `ch`, with no spawn. -/
def imbalancedSendsFunc : GoNode :=
  .funcDecl "test" ⟨"example.go", 2, 1⟩ (some (.block
    [.sendStmt (.ident "ch") .lit, .sendStmt (.ident "ch") .lit,
     .sendStmt (.ident "ch") .lit, .sendStmt (.ident "ch") .lit,
     .sendStmt (.ident "ch") .lit, .sendStmt (.ident "ch") .lit,
     .sendStmt (.ident "ch") .lit, .sendStmt (.ident "ch") .lit,
     .sendStmt (.ident "ch") .lit, .sendStmt (.ident "ch") .lit,
     .sendStmt (.ident "ch") .lit, .sendStmt (.ident "ch") .lit,
     .sendStmt (.ident "ch") .lit, .sendStmt (.ident "ch") .lit,
     .sendStmt (.ident "ch") .lit,
     .exprStmt (.unaryArrow (.ident "ch"))]))

/-! ### Helper lemmas -/

/-- A string with a nonempty left part is nonempty. -/
theorem strAppend_ne_empty (s t : String) (h : s ≠ "") : s ++ t ≠ "" := by
  intro hst
  apply h
  have hd := congrArg String.data hst
  rw [String.data_append] at hd
  have hs : s.data = [] := (List.append_eq_nil.mp hd).1
  cases s
  simp_all [String.ext_iff]

/-- Rewriting form of `strAppend_ne_empty` for conditional `simp`. -/
theorem strAppend_eq_empty_false (s t : String) (h : ¬s = "") :
    ((s ++ t) = "") = False := by
  simp [strAppend_ne_empty s t h]

/-- `newAnalysisFindingOrZero` is the plain record when both
validations pass. -/
theorem newAnalysisFindingOrZero_eq (id : String) (ft : FindingType)
    (loc : SourceLocation) (msg : String) (sev : SeverityLevel)
    (hid : ¬id = "") (hmsg : ¬msg = "") :
    newAnalysisFindingOrZero id ft loc msg sev = ⟨id, ft, loc, msg, sev⟩ := by
  simp [newAnalysisFindingOrZero, newAnalysisFinding, hid, hmsg]

mutual

theorem cycloFold_eq : ∀ (n : GoNode) (c : Nat),
    foldPre cycloStep c n = c + cyclomaticSpec n
  | .ident _, c => by simp [foldPre, cycloStep, cyclomaticSpec]
  | .lit, c => by simp [foldPre, cycloStep, cyclomaticSpec]
  | .unaryArrow x, c => by
    simp [foldPre, cycloStep, cyclomaticSpec, cycloFold_eq x]
  | .binary op x y, c => by
    simp [foldPre, cycloStep, cyclomaticSpec, cycloFold_eq x, cycloFold_eq y]
    split <;> omega
  | .selector x _, c => by
    simp [foldPre, cycloStep, cyclomaticSpec, cycloFold_eq x]
  | .call fn args, c => by
    simp [foldPre, cycloStep, cyclomaticSpec, cycloFold_eq fn,
      cycloFoldL_eq args]
    omega
  | .funcLit body, c => by
    simp [foldPre, cycloStep, cyclomaticSpec, cycloFold_eq body]
  | .exprStmt x, c => by
    simp [foldPre, cycloStep, cyclomaticSpec, cycloFold_eq x]
  | .sendStmt ch value, c => by
    simp [foldPre, cycloStep, cyclomaticSpec, cycloFold_eq ch,
      cycloFold_eq value]
    omega
  | .assignStmt lhs rhs, c => by
    simp [foldPre, cycloStep, cyclomaticSpec, cycloFoldL_eq lhs,
      cycloFoldL_eq rhs]
    omega
  | .ifStmt cond body els, c => by
    simp [foldPre, cycloStep, cyclomaticSpec, cycloFold_eq cond,
      cycloFold_eq body, cycloFoldO_eq els]
    omega
  | .forStmt body, c => by
    simp [foldPre, cycloStep, cyclomaticSpec, cycloFold_eq body]
    omega
  | .rangeStmt body, c => by
    simp [foldPre, cycloStep, cyclomaticSpec, cycloFold_eq body]
    omega
  | .switchStmt body, c => by
    simp [foldPre, cycloStep, cyclomaticSpec, cycloFold_eq body]
    omega
  | .typeSwitchStmt body, c => by
    simp [foldPre, cycloStep, cyclomaticSpec, cycloFold_eq body]
    omega
  | .selectStmt body, c => by
    simp [foldPre, cycloStep, cyclomaticSpec, cycloFold_eq body]
    omega
  | .commClause comm body, c => by
    simp [foldPre, cycloStep, cyclomaticSpec, cycloFoldO_eq comm,
      cycloFoldL_eq body]
    omega
  | .goStmt _ callE, c => by
    simp [foldPre, cycloStep, cyclomaticSpec, cycloFold_eq callE]
  | .deferStmt callE, c => by
    simp [foldPre, cycloStep, cyclomaticSpec, cycloFold_eq callE]
  | .returnStmt results, c => by
    simp [foldPre, cycloStep, cyclomaticSpec, cycloFoldL_eq results]
  | .block stmts, c => by
    simp [foldPre, cycloStep, cyclomaticSpec, cycloFoldL_eq stmts]
  | .funcDecl _ _ body, c => by
    simp [foldPre, cycloStep, cyclomaticSpec, cycloFoldO_eq body]
  | .file decls, c => by
    simp [foldPre, cycloStep, cyclomaticSpec, cycloFoldL_eq decls]

theorem cycloFoldL_eq : ∀ (l : List GoNode) (c : Nat),
    foldPreList cycloStep c l = c + cyclomaticSpecL l
  | [], c => by simp [foldPreList, cyclomaticSpecL]
  | n :: rest, c => by
    simp [foldPreList, cyclomaticSpecL, cycloFold_eq n, cycloFoldL_eq rest]
    omega

theorem cycloFoldO_eq : ∀ (o : Option GoNode) (c : Nat),
    foldPreOpt cycloStep c o = c + cyclomaticSpecO o
  | none, c => by simp [foldPreOpt, cyclomaticSpecO]
  | some n, c => by simp [foldPreOpt, cyclomaticSpecO, cycloFold_eq n]

end

/-! ### The claims -/

/-- C1 (amended): a function whose body consists of a single `Lock()`
call on an identifier (and so has no `Unlock()` on it) yields exactly
one "deadlock" Bug finding with Critical severity, located at the
function declaration — the tally records the lone direct `Lock()`
twice (direct check plus nested re-inspect), so `locks > unlocks + 1`
holds with one lock and zero unlocks. -/
theorem claim_C1 (m fname : String) (pos : Position) :
    detectBugs (.file [.funcDecl fname pos (some (.block
      [.exprStmt (.call (.selector (.ident m) "Lock") [])]))]) =
    [⟨"deadlock_" ++ fname ++ "_" ++ toString pos.line, .bug,
      newSourceLocationOrZero pos.filename pos.line pos.column,
      "Potential blocking bug in " ++ fname ++ ": deadlock pattern detected - " ++
        ("mutex '" ++ m ++ "' usage pattern may cause deadlock: " ++ "[lock lock]"),
      .critical⟩] := by
  simp [detectBugs, foldPre, foldPreList, foldPreOpt,
    analyzeFunctionConcurrency, detectBlockingBugs, analyzeBlockingPatterns,
    blockN, blockL, blockO, finishPatterns, analyzeCallForBlocking,
    mutexInspectStep, opsAppend, opsHasKey, tallyCall, tallySend, tallyReceive,
    flagSelect, hasPotentialDeadlock, hasPotentialChannelBlock,
    detectRaceConditions, containsGoroutines, analyzeRaceConditionPatterns,
    opsFormat, BlockingCause.string, String.intercalate, String.intercalate.go]
  rw [newAnalysisFindingOrZero_eq]
  · exact strAppend_ne_empty _ _
      (strAppend_ne_empty _ _ (strAppend_ne_empty _ _ (by decide)))
  · exact strAppend_ne_empty _ _
      (strAppend_ne_empty _ _ (strAppend_ne_empty _ _ (by decide)))

/-- C1 counterexample: a function whose body contains exactly one
`Lock()` call on `mu` and no `Unlock()` — but inside a spawned inline
body — receives two "deadlock" findings, not one: the imbalance is
reported once by the recursive spawn-body analysis and once by the
outer walk's tally. -/
theorem claim_C1_counterexample :
    detectBugs (.file [.funcDecl "test" ⟨"example.go", 3, 1⟩ (some (.block
      [.goStmt ⟨"example.go", 4, 2⟩ (.call (.funcLit (.block
        [.exprStmt (.call (.selector (.ident "mu") "Lock") [])])) [])]))]) =
    [⟨"deadlock_test_3", .bug, ⟨"example.go", 3, 1⟩,
      "Potential blocking bug in test: deadlock pattern detected - mutex 'mu' usage pattern may cause deadlock: [lock lock]",
      .critical⟩,
     ⟨"deadlock_test_3", .bug, ⟨"example.go", 3, 1⟩,
      "Potential blocking bug in test: deadlock pattern detected - mutex 'mu' usage pattern may cause deadlock: [lock lock]",
      .critical⟩] := by
  simp [detectBugs, foldPre, foldPreList, foldPreOpt,
    analyzeFunctionConcurrency, detectBlockingBugs, analyzeBlockingPatterns,
    blockN, blockL, blockO, finishPatterns, analyzeCallForBlocking,
    mutexInspectStep, opsAppend, opsHasKey, tallyCall, tallySend, tallyReceive,
    flagSelect, hasPotentialDeadlock, hasPotentialChannelBlock,
    detectRaceConditions, containsGoroutines, analyzeRaceConditionPatterns,
    opsFormat, BlockingCause.string, String.intercalate, String.intercalate.go,
    newAnalysisFindingOrZero, newAnalysisFinding, newSourceLocationOrZero,
    newSourceLocation]
  decide

/-- C2 (amended): a spawn whose inline body is exactly a select with
two receive clauses on distinct, plainly named channels yields four
findings in total, not two: the receives inside the select clauses
also set has-receive, so the Task Leak Detector emits a receive-leak
(Warning, confidence 0.42) and a select-leak (Error, confidence 0.86);
and the Concurrency Bug Detector reports the blocking select twice
("channel misuse", Warning) — once from the recursive spawn-body
analysis and once from the outer walk of the enclosing function. -/
theorem claim_C2 (ch1 ch2 fname : String) (fpos gpos : Position)
    (hne : ch1 ≠ ch2) (h1 : isDoneChannelName ch1 = false)
    (h2 : isDoneChannelName ch2 = false) :
    detectLeaks (selectSpawnTree ch1 ch2 fname fpos gpos) =
      [⟨"channel_receive_leak_anonymous_goroutine_" ++ toString gpos.line,
        .smell, newSourceLocationOrZero gpos.filename gpos.line gpos.column,
        "Potential goroutine leak in anonymous_goroutine: channel_receive_leak detected - channel receive without close operation (confidence: 0.42)",
        .warning⟩,
       ⟨"select_statement_leak_anonymous_goroutine_" ++ toString gpos.line,
        .smell, newSourceLocationOrZero gpos.filename gpos.line gpos.column,
        "Potential goroutine leak in anonymous_goroutine: select_statement_leak detected - select statement without escape hatch (context cancel or timeout) (confidence: 0.86)",
        .error⟩] ∧
    detectBugs (selectSpawnTree ch1 ch2 fname fpos gpos) =
      [⟨"channel_misuse_" ++ fname ++ "_" ++ toString fpos.line, .bug,
        newSourceLocationOrZero fpos.filename fpos.line fpos.column,
        "Potential blocking bug in " ++ fname ++ ": channel misuse detected - " ++
          "select statement without default or timeout case may block indefinitely",
        .warning⟩,
       ⟨"channel_misuse_" ++ fname ++ "_" ++ toString fpos.line, .bug,
        newSourceLocationOrZero fpos.filename fpos.line fpos.column,
        "Potential blocking bug in " ++ fname ++ ": channel misuse detected - " ++
          "select statement without default or timeout case may block indefinitely",
        .warning⟩] := by
  constructor
  · simp [selectSpawnTree, detectLeaks, collectGoroutines, analyzeGoroutine,
      analyzeFunctionBody, foldPre, foldPreList, foldPreOpt, leakStep,
      analyzeCallExpression, analyzeSelectStatement, selectClauses,
      leakScanClause, isContextDoneCall, isDoneChannel, isTimeoutCall,
      checkDeferClose, checkPrematureReturn, checkForDoubleSend,
      countSameChannelSends, sameChannel, checkLeakPatterns,
      newAnalysisFindingOrZero_eq, strAppend_eq_empty_false, h1, h2]
  · simp [selectSpawnTree, detectBugs, foldPre, foldPreList, foldPreOpt,
      analyzeFunctionConcurrency, detectBlockingBugs, analyzeBlockingPatterns,
      blockN, blockL, blockO, finishPatterns, analyzeCallForBlocking,
      mutexInspectStep, opsAppend, opsHasKey, tallyCall, tallySend,
      tallyReceive, flagSelect, hasPotentialDeadlock, hasPotentialChannelBlock,
      isPotentiallyBlockingSelect, selectClauses, bugScanClause,
      isContextDoneCallBug, isTimeoutCallBug, detectRaceConditions,
      containsGoroutines, analyzeRaceConditionPatterns, opsFormat,
      BlockingCause.string, String.intercalate, String.intercalate.go,
      newAnalysisFindingOrZero_eq, strAppend_eq_empty_false, hne, h1, h2]
    rw [newAnalysisFindingOrZero_eq]
    · exact strAppend_ne_empty _ _
        (strAppend_ne_empty _ _ (strAppend_ne_empty _ _ (by decide)))
    · exact strAppend_ne_empty _ _
        (strAppend_ne_empty _ _ (strAppend_ne_empty _ _ (by decide)))

/-- C2 counterexample: on the spawn-of-a-two-clause-select tree the
two detectors together produce four findings, not the claimed two. -/
theorem claim_C2_counterexample :
    (detectLeaks (selectSpawnTree "ch1" "ch2" "test" ⟨"example.go", 3, 1⟩
        ⟨"example.go", 4, 2⟩)).length +
      (detectBugs (selectSpawnTree "ch1" "ch2" "test" ⟨"example.go", 3, 1⟩
        ⟨"example.go", 4, 2⟩)).length = 4 := by
  have hb : (detectBugs (selectSpawnTree "ch1" "ch2" "test"
      ⟨"example.go", 3, 1⟩ ⟨"example.go", 4, 2⟩)).length = 2 := by
    simp [selectSpawnTree, detectBugs, foldPre, foldPreList, foldPreOpt,
      analyzeFunctionConcurrency, detectBlockingBugs, analyzeBlockingPatterns,
      blockN, blockL, blockO, finishPatterns, analyzeCallForBlocking,
      mutexInspectStep, opsAppend, opsHasKey, tallyCall, tallySend,
      tallyReceive, flagSelect, hasPotentialDeadlock, hasPotentialChannelBlock,
      isPotentiallyBlockingSelect, selectClauses, bugScanClause,
      isContextDoneCallBug, isTimeoutCallBug, detectRaceConditions,
      containsGoroutines, analyzeRaceConditionPatterns]
  have hl : (detectLeaks (selectSpawnTree "ch1" "ch2" "test"
      ⟨"example.go", 3, 1⟩ ⟨"example.go", 4, 2⟩)).length = 2 := by decide
  rw [hl, hb]

/-- C2 witness: the amended statement at channels `ch1`, `ch2`,
function `test`, with concrete positions. -/
theorem claim_C2_witness :
    (("ch1" : String) ≠ "ch2") ∧ isDoneChannelName "ch1" = false ∧
    isDoneChannelName "ch2" = false ∧
    (detectLeaks (selectSpawnTree "ch1" "ch2" "test" ⟨"example.go", 3, 1⟩
        ⟨"example.go", 4, 2⟩) =
      [⟨"channel_receive_leak_anonymous_goroutine_4", .smell,
        ⟨"example.go", 4, 2⟩,
        "Potential goroutine leak in anonymous_goroutine: channel_receive_leak detected - channel receive without close operation (confidence: 0.42)",
        .warning⟩,
       ⟨"select_statement_leak_anonymous_goroutine_4", .smell,
        ⟨"example.go", 4, 2⟩,
        "Potential goroutine leak in anonymous_goroutine: select_statement_leak detected - select statement without escape hatch (context cancel or timeout) (confidence: 0.86)",
        .error⟩] ∧
     detectBugs (selectSpawnTree "ch1" "ch2" "test" ⟨"example.go", 3, 1⟩
        ⟨"example.go", 4, 2⟩) =
      [⟨"channel_misuse_test_3", .bug, ⟨"example.go", 3, 1⟩,
        "Potential blocking bug in test: channel misuse detected - select statement without default or timeout case may block indefinitely",
        .warning⟩,
       ⟨"channel_misuse_test_3", .bug, ⟨"example.go", 3, 1⟩,
        "Potential blocking bug in test: channel misuse detected - select statement without default or timeout case may block indefinitely",
        .warning⟩]) :=
  ⟨by decide, by decide, by decide,
    claim_C2 "ch1" "ch2" "test" ⟨"example.go", 3, 1⟩ ⟨"example.go", 4, 2⟩
      (by decide) (by decide) (by decide)⟩

/-- C3: the failing input is `func f() { if a { } }`.  The code
computes cognitive complexity 2 for it — the root comparison is
against the function declaration, so the outermost body block already
raises the captured nesting counter to 1 despite the "don't count the
root block" comment — while the claim's reference definition (nesting
0 in the outermost block) gives 1. -/
theorem claim_C3 :
    calculateCognitiveComplexity
      (.funcDecl "f" ⟨"example.go", 1, 1⟩ (some (.block
        [.ifStmt (.ident "a") (.block []) none]))) 0 = 2 ∧
    cognitiveRef 0
      (.funcDecl "f" ⟨"example.go", 1, 1⟩ (some (.block
        [.ifStmt (.ident "a") (.block []) none]))) = 1 := by
  constructor
  · simp [calculateCognitiveComplexity, cognitiveN, cognitiveL, cognitiveO]
  · simp [cognitiveRef, cognitiveRefL, cognitiveRefO, cognitiveRefElse]

/-- C4 (amended): has-premature-return is sensitive to the order of
the depth-first walk — a channel send followed by a return sets it,
while a return preceding every channel operation leaves it false
(`checkPrematureReturn` consults the receive/send flags recorded so
far at the moment the return statement is visited). -/
theorem claim_C4 (ch v : String) (pos : Position) :
    (analyzeFunctionBody
      (.block [.sendStmt (.ident ch) (.ident v), .returnStmt []])
      (initialGoroutineContext pos)).hasPrematureReturn = true ∧
    (analyzeFunctionBody
      (.block [.returnStmt [], .sendStmt (.ident ch) (.ident v)])
      (initialGoroutineContext pos)).hasPrematureReturn = false := by
  constructor <;>
  simp [analyzeFunctionBody, initialGoroutineContext, foldPre, foldPreList,
    foldPreOpt, leakStep, checkPrematureReturn, checkForDoubleSend,
    countSameChannelSends, sameChannel, analyzeCallExpression]

/-- C4 counterexample: a spawn body containing a return statement and
a channel send — with the return first — builds its context with
has-premature-return false, although the claim requires true for any
order. -/
theorem claim_C4_counterexample :
    (analyzeFunctionBody
      (.block [.returnStmt [], .sendStmt (.ident "ch") (.ident "x")])
      (initialGoroutineContext ⟨"example.go", 4, 2⟩)).hasPrematureReturn =
      false := by
  decide

/-- C5: a context with has-receive and neither has-close nor
has-cancel-signal always yields a receive-leak finding with Warning
severity whose message contains "confidence: 0.42"; and the spawn
whose body is only `val := <-ch` produces exactly that one finding. -/
theorem claim_C5 :
    (∀ ctx : GoroutineContext,
      ctx.hasChannelReceive = true → ctx.hasChannelClose = false →
      ctx.hasContextCancel = false →
      ∃ f ∈ checkLeakPatterns ctx,
        f.severity = .warning ∧ ContainsSub f.message "confidence: 0.42") ∧
    detectLeaks assignReceiveSpawnTree =
      [⟨"channel_receive_leak_anonymous_goroutine_4", .smell,
        ⟨"example.go", 4, 2⟩,
        "Potential goroutine leak in anonymous_goroutine: channel_receive_leak detected - channel receive without close operation (confidence: 0.42)",
        .warning⟩] := by
  constructor
  · intro ctx h1 h2 h3
    have hid : ¬ ("channel_receive_leak_" ++ ctx.functionName ++ "_" ++
        toString ctx.position.line) = "" :=
      strAppend_ne_empty _ _ (strAppend_ne_empty _ _
        (strAppend_ne_empty _ _ (by decide)))
    have hmsg : ¬ ("Potential goroutine leak in " ++ ctx.functionName ++
        ": channel_receive_leak detected - channel receive without close operation (confidence: 0.42)") = "" :=
      strAppend_ne_empty _ _ (strAppend_ne_empty _ _ (by decide))
    refine ⟨⟨"channel_receive_leak_" ++ ctx.functionName ++ "_" ++
        toString ctx.position.line, .smell,
        newSourceLocationOrZero ctx.position.filename ctx.position.line
          ctx.position.column,
        "Potential goroutine leak in " ++ ctx.functionName ++
          ": channel_receive_leak detected - channel receive without close operation (confidence: 0.42)",
        .warning⟩, ?_, rfl, ?_⟩
    · simp [checkLeakPatterns, h1, h2, h3,
        newAnalysisFindingOrZero_eq _ _ _ _ _ hid hmsg]
    · refine ⟨"Potential goroutine leak in " ++ ctx.functionName ++
        ": channel_receive_leak detected - channel receive without close operation (",
        ")", ?_⟩
      conv_rhs => rw [String.append_assoc]
      rfl
  · decide

/-- C5 witness: the general statement applied to the concrete context
of the `val := <-ch` spawn. -/
theorem claim_C5_witness :
    ({ initialGoroutineContext ⟨"example.go", 4, 2⟩ with
        hasChannelReceive := true } : GoroutineContext).hasChannelReceive =
      true ∧
    ({ initialGoroutineContext ⟨"example.go", 4, 2⟩ with
        hasChannelReceive := true } : GoroutineContext).hasChannelClose =
      false ∧
    ({ initialGoroutineContext ⟨"example.go", 4, 2⟩ with
        hasChannelReceive := true } : GoroutineContext).hasContextCancel =
      false ∧
    ∃ f ∈ checkLeakPatterns { initialGoroutineContext ⟨"example.go", 4, 2⟩ with
        hasChannelReceive := true },
      f.severity = .warning ∧ ContainsSub f.message "confidence: 0.42" :=
  ⟨rfl, rfl, rfl,
    claim_C5.1 { initialGoroutineContext ⟨"example.go", 4, 2⟩ with
      hasChannelReceive := true } rfl rfl rfl⟩

/-- C6: the channel-imbalance rule flags a tally exactly when the
total number of tallied send and receive operations is at least 2 and
one direction strictly exceeds twice the other; a function with 15
sends and 1 receive on `ch` and no spawn yields exactly one "channel
misuse" Bug finding with Warning severity. -/
theorem claim_C6 :
    (∀ ops : List String,
      hasPotentialChannelBlock ops = true ↔
        2 ≤ (ops.filter fun op => op == "send").length +
            (ops.filter fun op => op == "receive").length ∧
          ((ops.filter fun op => op == "receive").length * 2 <
              (ops.filter fun op => op == "send").length ∨
            (ops.filter fun op => op == "send").length * 2 <
              (ops.filter fun op => op == "receive").length)) ∧
    detectBugs (.file [imbalancedSendsFunc]) =
      [⟨"channel_misuse_test_2", .bug, ⟨"example.go", 2, 1⟩,
        "Potential blocking bug in test: channel misuse detected - channel 'ch' operations may cause blocking: [send send send send send send send send send send send send send send send receive]",
        .warning⟩] := by
  constructor
  · intro ops
    simp only [hasPotentialChannelBlock]
    split
    · rename_i hlt
      simp
      omega
    · rename_i hge
      simp
      omega
  · simp [detectBugs, foldPre, foldPreList, foldPreOpt,
      analyzeFunctionConcurrency, detectBlockingBugs, analyzeBlockingPatterns,
      blockN, blockL, blockO, finishPatterns, analyzeCallForBlocking,
      mutexInspectStep, opsAppend, opsHasKey, tallyCall, tallySend,
      tallyReceive, flagSelect, hasPotentialDeadlock, hasPotentialChannelBlock,
      isPotentiallyBlockingSelect, selectClauses, bugScanClause,
      detectRaceConditions, containsGoroutines, analyzeRaceConditionPatterns,
      opsFormat, BlockingCause.string, String.intercalate,
      String.intercalate.go, imbalancedSendsFunc, newAnalysisFindingOrZero,
      newAnalysisFinding, newSourceLocationOrZero, newSourceLocation]
    decide

/-- C7: for every subtree the computed cyclomatic complexity is 1 plus
the number of conditional branch constructs plus the number of
short-circuit boolean operator occurrences anywhere in the subtree. -/
theorem claim_C7 (n : GoNode) :
    calculateCyclomaticComplexity n = 1 + cyclomaticSpec n :=
  cycloFold_eq n 1

/-- C8: `IsHighComplexity` holds exactly when cyclomatic exceeds 15 or
cognitive exceeds 20, with the claimed boundary behaviour. -/
theorem claim_C8 :
    (∀ s : ComplexityScore,
      s.IsHighComplexity = true ↔ (15 < s.cyclomatic ∨ 20 < s.cognitive)) ∧
    ComplexityScore.IsHighComplexity ⟨15, 20⟩ = false ∧
    ComplexityScore.IsHighComplexity ⟨16, 20⟩ = true ∧
    ComplexityScore.IsHighComplexity ⟨15, 21⟩ = true := by
  refine ⟨fun s => ?_, by decide, by decide, by decide⟩
  simp [ComplexityScore.IsHighComplexity]

/-- C9 (amended): every configuration returned by the constructor
satisfies the claimed field invariants; the with-X transformations
perform no validation, so the invariants are guaranteed only for
constructor outputs. -/
theorem claim_C9 (mc mg ml : Int) (sm : Bool) (sv : SeverityLevel)
    (c : AnalysisConfiguration)
    (h : newAnalysisConfiguration mc mg ml sm sv = .ok c) :
    1 ≤ c.maxCyclomaticComplexity ∧ 0 ≤ c.maxCognitiveComplexity ∧
      1 ≤ c.maxFunctionLength := by
  unfold newAnalysisConfiguration at h
  split at h
  · simp at h
  · split at h
    · simp at h
    · split at h
      · simp at h
      · injection h with hc
        subst hc
        refine ⟨?_, ?_, ?_⟩ <;> simp <;> omega

/-- C9 counterexample: a value reachable through the public surface —
the constructor followed by `WithMaxCyclomaticComplexity 0` — violates
`maxCyclomatic ≥ 1`. -/
theorem claim_C9_counterexample :
    newAnalysisConfiguration 15 20 80 true .warning =
      .ok ⟨15, 20, 80, true, .warning⟩ ∧
    withMaxCyclomaticComplexity ⟨15, 20, 80, true, .warning⟩ 0 =
      ⟨0, 20, 80, true, .warning⟩ ∧
    ¬ (1 ≤ (withMaxCyclomaticComplexity ⟨15, 20, 80, true, .warning⟩
        0).maxCyclomaticComplexity) :=
  ⟨rfl, rfl, by decide⟩

/-- C9 witness: the constructor invariants at the default values. -/
theorem claim_C9_witness :
    newAnalysisConfiguration 15 20 80 true .warning =
      .ok ⟨15, 20, 80, true, .warning⟩ ∧
    (1 ≤ (⟨15, 20, 80, true, .warning⟩ :
        AnalysisConfiguration).maxCyclomaticComplexity ∧
      0 ≤ (⟨15, 20, 80, true, .warning⟩ :
        AnalysisConfiguration).maxCognitiveComplexity ∧
      1 ≤ (⟨15, 20, 80, true, .warning⟩ :
        AnalysisConfiguration).maxFunctionLength) :=
  ⟨rfl, claim_C9 15 20 80 true .warning ⟨15, 20, 80, true, .warning⟩ rfl⟩

/-- C10: every finding the concurrency bug detector emits for a
function declaration carries the source location of that declaration,
never the location of the statement that triggered the rule. -/
theorem claim_C10 (name : String) (pos : Position) (body : GoNode)
    (f : AnalysisFinding)
    (hf : f ∈ analyzeFunctionConcurrency (.funcDecl name pos (some body))) :
    f.location = newSourceLocationOrZero pos.filename pos.line pos.column := by
  simp [analyzeFunctionConcurrency, detectBlockingBugs, detectRaceConditions,
    analyzeRaceConditionPatterns] at hf
  obtain ⟨p, hp, rfl⟩ := hf
  rw [newAnalysisFindingOrZero_eq]
  · cases p.cause <;> (repeat apply strAppend_ne_empty) <;> decide
  · cases p.cause <;> (repeat apply strAppend_ne_empty) <;> decide

/-- C10 witness: the single finding of the one-lock function sits at
the function declaration's location. -/
theorem claim_C10_witness :
    (⟨"deadlock_test_3", .bug, ⟨"example.go", 3, 1⟩,
      "Potential blocking bug in test: deadlock pattern detected - mutex 'mu' usage pattern may cause deadlock: [lock lock]",
      .critical⟩ : AnalysisFinding) ∈
      analyzeFunctionConcurrency (.funcDecl "test" ⟨"example.go", 3, 1⟩
        (some (.block [.exprStmt (.call (.selector (.ident "mu") "Lock") [])]))) ∧
    (⟨"deadlock_test_3", .bug, ⟨"example.go", 3, 1⟩,
      "Potential blocking bug in test: deadlock pattern detected - mutex 'mu' usage pattern may cause deadlock: [lock lock]",
      .critical⟩ : AnalysisFinding).location =
      newSourceLocationOrZero "example.go" 3 1 := by
  have hmem : (⟨"deadlock_test_3", .bug, ⟨"example.go", 3, 1⟩,
      "Potential blocking bug in test: deadlock pattern detected - mutex 'mu' usage pattern may cause deadlock: [lock lock]",
      .critical⟩ : AnalysisFinding) ∈
      analyzeFunctionConcurrency (.funcDecl "test" ⟨"example.go", 3, 1⟩
        (some (.block
          [.exprStmt (.call (.selector (.ident "mu") "Lock") [])]))) := by
    simp [analyzeFunctionConcurrency, detectBlockingBugs,
      analyzeBlockingPatterns, blockN, blockL, blockO, finishPatterns,
      analyzeCallForBlocking, mutexInspectStep, opsAppend, opsHasKey,
      tallyCall, tallySend, tallyReceive, flagSelect, hasPotentialDeadlock,
      hasPotentialChannelBlock, detectRaceConditions, containsGoroutines,
      analyzeRaceConditionPatterns, foldPre, foldPreList, foldPreOpt,
      opsFormat, BlockingCause.string, String.intercalate,
      String.intercalate.go, newAnalysisFindingOrZero, newAnalysisFinding,
      newSourceLocationOrZero, newSourceLocation]
    decide
  exact ⟨hmem,
    claim_C10 "test" ⟨"example.go", 3, 1⟩
      (.block [.exprStmt (.call (.selector (.ident "mu") "Lock") [])]) _ hmem⟩

end GoAnalyzer
